import Mathlib

/-!
Shallow embedding of the core of the Mindful Moments journaling app
(source: src/index.tsx) and verification of its specification claims.

The embedding covers:
* the journal entry data model (`JournalEntry`, `Mood`),
* startup hydration of the entry store from the persistent store,
* the append operation (`handleSaveEntry`),
* the badge list and its recompute (`initialBadges`, `recomputeBadges`),
* the CBT reframing pipeline (`handleAnalyzeCBT` and the analyze button guard),
* entry construction on save (`handleSubmit`).
-/

namespace MindfulMoments

/-- The 5-value mood enumeration, from the `Mood` union type in src/index.tsx. -/
inductive Mood where
  | very_sad
  | sad
  | neutral
  | happy
  | very_happy
deriving DecidableEq, Repr

/-- A journal entry, from the `JournalEntry` interface in src/index.tsx.
Optional fields of the TypeScript interface become `Option String`
(`none` models the field being `undefined`/absent). -/
structure JournalEntry where
  id : String
  date : String
  content : String
  mood : Mood
  negativeThought : Option String := none
  cbtSuggestion : Option String := none
  prompt : Option String := none
deriving DecidableEq, Repr

/-- JavaScript truthiness of an optional string field, as used by
the badge condition `!!entry.cbtSuggestion`: `undefined` and the empty
string are falsy, any non-empty string is truthy. -/
def truthy : Option String → Bool
  | none => false
  | some s => !(s == "")

/-- The possible contents of the persistent store under the entry-history
key, as seen by the hydration effect: the key may be absent
(`localStorage.getItem` returns null), hold bytes that are not valid JSON
(`JSON.parse` throws a SyntaxError), or hold a valid serialized entry
sequence. -/
inductive StoredBytes where
  | absent
  | malformedJson (raw : String)
  | validEntries (entries : List JournalEntry)

/-- The hydration effect for the entry-history key (src/index.tsx lines
145-151): `const savedEntries = localStorage.getItem("mm_entries");
if (savedEntries) setEntries(JSON.parse(savedEntries));`.
There is no try/catch around `JSON.parse`, so on malformed bytes the
SyntaxError propagates out of the effect (`Except.error`); on an absent
key the guard is falsy and `entries` keeps its initial value `[]`. -/
def hydrateEntries : StoredBytes → Except String (List JournalEntry)
  | StoredBytes.absent => Except.ok []
  | StoredBytes.malformedJson _ => Except.error "SyntaxError"
  | StoredBytes.validEntries entries => Except.ok entries

/-- `handleSaveEntry` (src/index.tsx lines 169-172):
`setEntries([entry, ...entries])` inserts the new entry at the head of
the sequence. -/
def handleSaveEntry (entry : JournalEntry) (entries : List JournalEntry) :
    List JournalEntry :=
  entry :: entries

/-- C1: the spec claims hydration turns malformed or absent stored bytes
into the empty sequence with no escaping exception. This fails on the
code: there is no try/catch around `JSON.parse`, so on malformed bytes
the parse error escapes the startup effect instead of yielding `[]`. -/
theorem hydrate_malformed_counterexample :
    hydrateEntries (StoredBytes.malformedJson "not json")
      = Except.error "SyntaxError" ∧
    hydrateEntries (StoredBytes.malformedJson "not json")
      ≠ Except.ok [] := by
  refine ⟨rfl, ?_⟩
  intro h
  exact Except.noConfusion h

/-- C1 (amended): on an absent entry-history key, hydration leaves the
Entry Store as the empty sequence; on malformed bytes the JSON parse
error escapes the startup effect (it is not caught and does not
initialize the store to empty); on well-formed bytes the persisted
sequence is restored. -/
theorem hydrate_amended :
    hydrateEntries StoredBytes.absent = Except.ok [] ∧
    (∀ raw : String,
      hydrateEntries (StoredBytes.malformedJson raw)
        = Except.error "SyntaxError") ∧
    (∀ entries : List JournalEntry,
      hydrateEntries (StoredBytes.validEntries entries)
        = Except.ok entries) :=
  ⟨rfl, fun _ => rfl, fun _ => rfl⟩

/-- C4: appending a valid entry (non-empty content; the mood is valid by
typing) places it at index 0 and leaves every previously stored entry
unchanged, in its prior relative order, at the subsequent indices. -/
theorem append_preserves_order (e : JournalEntry) (es : List JournalEntry)
    (h : e.content ≠ "") :
    (handleSaveEntry e es)[0]? = some e ∧
    ∀ i : Nat, (handleSaveEntry e es)[i + 1]? = es[i]? :=
  ⟨List.getElem?_cons_zero, fun _ => List.getElem?_cons_succ⟩

/-- A concrete valid journal entry used to instantiate theorems. -/
def entryW : JournalEntry :=
  { id := "1", date := "2024-01-01T00:00:00.000Z",
    content := "今天很好", mood := Mood.happy }

/-- Witness for C4 at a concrete entry and the empty prior sequence. -/
theorem append_preserves_order_witness :
    (handleSaveEntry entryW [])[0]? = some entryW :=
  (append_preserves_order entryW [] (by decide)).1

/-- A badge, from the `Badge` interface in src/index.tsx. The
`React.ReactNode` icon is embedded as the icon component's name. -/
structure Badge where
  id : String
  name : String
  description : String
  icon : String
  unlocked : Bool
  condition : List JournalEntry → Bool

/-- The initial badge list, from the `useState<Badge[]>` initializer in
src/index.tsx lines 102-139, with each badge's condition translated
field by field:
* "first_step": `e.length >= 1`;
* "streak_3": `if (e.length < 3) return false; return true;`;
* "cbt_explorer": `e.some(entry => !!entry.cbtSuggestion)`;
* "master_10": `e.length >= 10`. -/
def initialBadges : List Badge :=
  [ { id := "first_step", name := "起步者",
      description := "完成你的第一篇感恩日记。", icon := "Book",
      unlocked := false,
      condition := fun e => decide (1 ≤ e.length) },
    { id := "streak_3", name := "三日连胜",
      description := "连续记录3天。", icon := "Sparkles",
      unlocked := false,
      condition := fun e => if e.length < 3 then false else true },
    { id := "cbt_explorer", name := "思维探索者",
      description := "完成一次负面思维重构练习。", icon := "Brain",
      unlocked := false,
      condition := fun e => e.any fun entry => truthy entry.cbtSuggestion },
    { id := "master_10", name := "感恩大师",
      description := "累计记录10件感恩之事。", icon := "Award",
      unlocked := false,
      condition := fun e => decide (10 ≤ e.length) } ]

/-- The badge recompute run after every entry-history mutation
(src/index.tsx lines 153-161):
`setBadges(prev => prev.map(badge => (\x7b ...badge, unlocked:
badge.condition(entries) \x7d)))`. -/
def recomputeBadges (entries : List JournalEntry) (badges : List Badge) :
    List Badge :=
  badges.map fun b => { b with unlocked := b.condition entries }

/-- The ids of the unlocked badges after recomputing against an entry
history, read off the way the profile view does
(`badges.filter(b => b.unlocked)`). -/
def unlockedIds (entries : List JournalEntry) : List String :=
  ((recomputeBadges entries initialBadges).filter fun b => b.unlocked).map
    fun b => b.id

/-- C10: the badge recompute changes only the `unlocked` field: length
and order of the badge list are preserved, and every badge's id, name,
description, icon and condition are unchanged. -/
theorem recompute_badges_frame (entries : List JournalEntry)
    (badges : List Badge) :
    (recomputeBadges entries badges).length = badges.length ∧
    ∀ i : Nat,
      ((recomputeBadges entries badges)[i]?).map Badge.id
          = (badges[i]?).map Badge.id ∧
      ((recomputeBadges entries badges)[i]?).map Badge.name
          = (badges[i]?).map Badge.name ∧
      ((recomputeBadges entries badges)[i]?).map Badge.description
          = (badges[i]?).map Badge.description ∧
      ((recomputeBadges entries badges)[i]?).map Badge.icon
          = (badges[i]?).map Badge.icon ∧
      ((recomputeBadges entries badges)[i]?).map Badge.condition
          = (badges[i]?).map Badge.condition := by
  refine ⟨List.length_map _ _, fun i => ?_⟩
  cases h : badges[i]? with
  | none => simp [recomputeBadges, List.getElem?_map, h]
  | some b => simp [recomputeBadges, List.getElem?_map, h]

/-- `truthy` holds exactly on a present, non-empty string. -/
theorem truthy_eq_true (o : Option String) :
    truthy o = true ↔ ∃ s, o = some s ∧ s ≠ "" := by
  cases o with
  | none => simp [truthy]
  | some s => simp [truthy]

/-- C5: the "cbt_explorer" badge is unlocked iff some entry in the
history has a present, non-empty `cbtSuggestion` (JS truthiness of
`!!entry.cbtSuggestion`); in particular a history whose entries all have
`negativeThought` set but `cbtSuggestion` absent or empty does not
unlock it. -/
theorem cbt_explorer_unlocked_iff (es : List JournalEntry) :
    ("cbt_explorer" ∈ unlockedIds es ↔
      ∃ e ∈ es, ∃ s : String, e.cbtSuggestion = some s ∧ s ≠ "") ∧
    ((∀ e ∈ es, e.negativeThought.isSome ∧
        (e.cbtSuggestion = none ∨ e.cbtSuggestion = some "")) →
      "cbt_explorer" ∉ unlockedIds es) := by
  have hmem : ("cbt_explorer" ∈ unlockedIds es ↔
      (es.any fun entry => truthy entry.cbtSuggestion) = true) := by
    cases h1 : decide (1 ≤ es.length) <;>
      cases h2 : decide (es.length < 3) <;>
        cases h3 : (es.any fun entry => truthy entry.cbtSuggestion) <;>
          cases h4 : decide (10 ≤ es.length) <;>
            simp_all [unlockedIds, recomputeBadges, initialBadges]
  have hany : ((es.any fun entry => truthy entry.cbtSuggestion) = true ↔
      ∃ e ∈ es, ∃ s : String, e.cbtSuggestion = some s ∧ s ≠ "") := by
    rw [List.any_eq_true]
    constructor
    · rintro ⟨e, he, ht⟩
      exact ⟨e, he, (truthy_eq_true e.cbtSuggestion).mp ht⟩
    · rintro ⟨e, he, hs⟩
      exact ⟨e, he, (truthy_eq_true e.cbtSuggestion).mpr hs⟩
  refine ⟨hmem.trans hany, fun hall hmem' => ?_⟩
  rcases (hmem.trans hany).mp hmem' with ⟨e, he, s, hs, hne⟩
  rcases (hall e he).2 with h | h
  · rw [h] at hs; exact Option.noConfusion hs
  · rw [h] at hs
    exact hne (Option.some.inj hs).symm

/-- A concrete entry with a negative thought but no stored suggestion. -/
def entryNT : JournalEntry :=
  { id := "2", date := "2024-01-02T00:00:00.000Z",
    content := "记录", mood := Mood.sad,
    negativeThought := some "我总是做不好" }

/-- Witness for C5: a one-entry history whose entry has
`negativeThought` set and `cbtSuggestion` absent does not unlock the
"cbt_explorer" badge. -/
theorem cbt_explorer_unlocked_iff_witness :
    "cbt_explorer" ∉ unlockedIds [entryNT] :=
  (cbt_explorer_unlocked_iff [entryNT]).2 (by
    intro e he
    rw [List.mem_singleton] at he
    subst he
    exact ⟨rfl, Or.inl rfl⟩)

/-- C9: badge evaluation on the empty history unlocks nothing; on a
one-entry history without a `cbtSuggestion` it unlocks exactly
"first_step"; on any history of length 10 it unlocks "first_step",
"streak_3" and "master_10". -/
theorem evaluate_badge_thresholds :
    unlockedIds [] = [] ∧
    (∀ e : JournalEntry, e.cbtSuggestion = none →
      unlockedIds [e] = ["first_step"]) ∧
    (∀ es : List JournalEntry, es.length = 10 →
      "first_step" ∈ unlockedIds es ∧
      "streak_3" ∈ unlockedIds es ∧
      "master_10" ∈ unlockedIds es) := by
  refine ⟨rfl, fun e h => ?_, fun es h => ?_⟩
  · simp [unlockedIds, recomputeBadges, initialBadges, truthy, h]
  · cases h3 : (es.any fun entry => truthy entry.cbtSuggestion) <;>
      simp [unlockedIds, recomputeBadges, initialBadges, h, h3]

/-- A ten-entry history used to instantiate the length-10 case. -/
def tenEntries : List JournalEntry := List.replicate 10 entryW

/-- Witness for C9 at a concrete one-entry history and a concrete
ten-entry history. -/
theorem evaluate_badge_thresholds_witness :
    unlockedIds [entryW] = ["first_step"] ∧
    "master_10" ∈ unlockedIds tenEntries :=
  ⟨evaluate_badge_thresholds.2.1 entryW rfl,
   (evaluate_badge_thresholds.2.2 tenEntries rfl).2.2⟩

/-- Model of JavaScript `String.prototype.trim()` as used by the save
guard and the spec's trimming language: remove leading and trailing
whitespace. -/
def jsTrim (s : String) : String :=
  String.mk
    (((s.data.dropWhile Char.isWhitespace).reverse.dropWhile
        Char.isWhitespace).reverse)

/-- The local state of the `JournalView` component (src/index.tsx lines
319-325) together with the `initialPrompt` prop: content, mood, the CBT
section toggle, the negative-thought text, the stored AI suggestion and
the in-flight flag. -/
structure JournalState where
  content : String
  mood : Mood
  showCBT : Bool
  negativeThought : String
  aiSuggestion : String
  isAnalysing : Bool
  initialPrompt : Option String := none
deriving DecidableEq, Repr

/-- Outcome of the text-generation request: the capability either
returns response text or fails (network, timeout, malformed response or
a thrown error — all collapsed into one failure kind by the catch-all
handler). -/
inductive GenResult where
  | success (text : String)
  | failure

/-- The hard-coded fallback suggestion stored by the catch branch of
`handleAnalyzeCBT` (src/index.tsx line 351). -/
def fallbackSuggestion : String :=
  "抱歉，AI 暂时无法连接。请试着问自己：这个想法是100%真实的吗？"

/-- The synchronous head of `handleAnalyzeCBT` (src/index.tsx lines
327-329): `if (!negativeThought) return;` then `setIsAnalysing(true)`
and issue the request. Returns the updated state and whether a request
was issued. -/
def analyzeStart (s : JournalState) : JournalState × Bool :=
  if s.negativeThought = "" then (s, false)
  else ({ s with isAnalysing := true }, true)

/-- The continuation of `handleAnalyzeCBT` after the awaited request
settles (src/index.tsx lines 342-354): on success
`setAiSuggestion(response.text)` (verbatim, no trimming); on any caught
error `setAiSuggestion` of the fixed fallback text; in both cases the
finally block runs `setIsAnalysing(false)`. -/
def analyzeResolve (s : JournalState) : GenResult → JournalState
  | GenResult.success t => { s with aiSuggestion := t, isAnalysing := false }
  | GenResult.failure =>
      { s with aiSuggestion := fallbackSuggestion, isAnalysing := false }

/-- One full run of `handleAnalyzeCBT` given the request outcome: the
guard and start, then the resolution if a request was issued. -/
def handleAnalyzeCBT (s : JournalState) (r : GenResult) : JournalState :=
  let (s1, issued) := analyzeStart s
  if issued then analyzeResolve s1 r else s1

/-- The disabled attribute of the analyze button (src/index.tsx line
434): `disabled=\x7bisAnalysing || !negativeThought\x7d`. -/
def analyzeButtonDisabled (s : JournalState) : Bool :=
  s.isAnalysing || (s.negativeThought == "")

/-- Clicking the analyze trigger in the UI. The button only exists while
no suggestion is stored (`!aiSuggestion ? <button .../> : ...`,
src/index.tsx line 431), and a disabled button's onClick does not fire;
otherwise `handleAnalyzeCBT` starts. Returns the updated state and
whether a request was issued. -/
def clickAnalyze (s : JournalState) : JournalState × Bool :=
  if s.aiSuggestion ≠ "" then (s, false)
  else if analyzeButtonDisabled s then (s, false)
  else analyzeStart s

/-- Abstraction of the component state to the spec's pipeline states,
read off the render logic of the CBT section (src/index.tsx lines
431-450): while `isAnalysing` the request is in flight; otherwise a
truthy `aiSuggestion` shows the suggestion card (Resolved); otherwise a
truthy `negativeThought` enables the trigger (Ready); otherwise Idle. -/
def pipelineState (s : JournalState) : String :=
  if s.isAnalysing then "Requesting"
  else if s.aiSuggestion ≠ "" then "Resolved"
  else if s.negativeThought ≠ "" then "Ready"
  else "Idle"

/-- `handleSubmit` (src/index.tsx lines 357-369): rejects blank content
(`if (!content.trim()) return;`), otherwise builds the new entry with
`negativeThought` and `cbtSuggestion` both governed by the `showCBT`
toggle and hands it to `onSave`. The nondeterministic id and date are
parameters. -/
def handleSubmit (s : JournalState) (newId newDate : String) :
    Option JournalEntry :=
  if jsTrim s.content = "" then none
  else some
    { id := newId, date := newDate, content := s.content, mood := s.mood,
      negativeThought := if s.showCBT then some s.negativeThought else none,
      cbtSuggestion := if s.showCBT then some s.aiSuggestion else none,
      prompt := s.initialPrompt }

/-- Committing a save from the composition view: `handleSubmit`
validates and builds the entry, and only on success does
`handleSaveEntry` append it to the store. -/
def commitSave (s : JournalState) (newId newDate : String)
    (entries : List JournalEntry) : List JournalEntry :=
  match handleSubmit s newId newDate with
  | none => entries
  | some e => handleSaveEntry e entries

/-- C2: with a non-empty negative thought, a failing request resolves to
the fixed fallback suggestion: the pipeline ends in "Resolved" with the
fallback text stored and no request in flight; `handleAnalyzeCBT` is
total, so no error reaches the caller. -/
theorem analyze_failure_fallback (s : JournalState)
    (h : s.negativeThought ≠ "") :
    (handleAnalyzeCBT s GenResult.failure).aiSuggestion
        = fallbackSuggestion ∧
    (handleAnalyzeCBT s GenResult.failure).isAnalysing = false ∧
    pipelineState (handleAnalyzeCBT s GenResult.failure) = "Resolved" := by
  simp [handleAnalyzeCBT, analyzeStart, analyzeResolve, pipelineState, h,
    fallbackSuggestion]

/-- A concrete composition state with the spec's sample negative thought
and no suggestion stored yet. -/
def stateR : JournalState :=
  { content := "记录", mood := Mood.sad, showCBT := true,
    negativeThought := "我总是做不好", aiSuggestion := "",
    isAnalysing := false }

/-- Witness for C2 at the spec's sample input. -/
theorem analyze_failure_fallback_witness :
    (handleAnalyzeCBT stateR GenResult.failure).aiSuggestion
        = fallbackSuggestion ∧
    (handleAnalyzeCBT stateR GenResult.failure).isAnalysing = false ∧
    pipelineState (handleAnalyzeCBT stateR GenResult.failure)
        = "Resolved" :=
  analyze_failure_fallback stateR (by decide)

/-- C3: the claim that the stored suggestion is the service text "after
trimming" fails on the code: `setAiSuggestion(response.text)` stores the
text verbatim, so a response with surrounding whitespace is stored
untrimmed. -/
theorem analyze_success_trim_counterexample :
    ¬ ((handleAnalyzeCBT stateR (GenResult.success " T ")).aiSuggestion
        = jsTrim " T ") := by
  decide

/-- C3 (amended): on a successful request returning text T, the stored
suggestion is exactly T verbatim — no trimming and no other
transformation — and for non-empty T the pipeline is in "Resolved"
with no request in flight. -/
theorem analyze_success_verbatim (s : JournalState) (t : String)
    (h1 : s.negativeThought ≠ "") (h2 : t ≠ "") :
    (handleAnalyzeCBT s (GenResult.success t)).aiSuggestion = t ∧
    (handleAnalyzeCBT s (GenResult.success t)).isAnalysing = false ∧
    pipelineState (handleAnalyzeCBT s (GenResult.success t))
        = "Resolved" := by
  simp [handleAnalyzeCBT, analyzeStart, analyzeResolve, pipelineState, h1,
    h2]

/-- Witness for the amended C3 at the spec's sample input and response
text "T". -/
theorem analyze_success_verbatim_witness :
    (handleAnalyzeCBT stateR (GenResult.success "T")).aiSuggestion
        = "T" ∧
    (handleAnalyzeCBT stateR (GenResult.success "T")).isAnalysing
        = false ∧
    pipelineState (handleAnalyzeCBT stateR (GenResult.success "T"))
        = "Resolved" :=
  analyze_success_verbatim stateR "T" (by decide) (by decide)

/-- C6: every entry built and saved through `handleSubmit` has
`cbtSuggestion` present iff `negativeThought` is present: both fields
are governed by the same `showCBT` toggle
(`showCBT ? negativeThought : undefined` and
`showCBT ? aiSuggestion : undefined`). -/
theorem saved_entry_cbt_invariant (s : JournalState)
    (newId newDate : String) (e : JournalEntry)
    (h : handleSubmit s newId newDate = some e) :
    e.cbtSuggestion.isSome = e.negativeThought.isSome := by
  unfold handleSubmit at h
  split at h
  · exact Option.noConfusion h
  · rw [Option.some.injEq] at h
    subst h
    cases hb : s.showCBT <;> simp [hb]

/-- The entry produced by `handleSubmit` on `stateR` with fixed id and
date, used to instantiate C6. -/
def entrySubmitted : JournalEntry :=
  { id := "3", date := "2024-01-03T00:00:00.000Z", content := "记录",
    mood := Mood.sad, negativeThought := some "我总是做不好",
    cbtSuggestion := some "" }

/-- Witness for C6 at a concrete composition state with the CBT section
open. -/
theorem saved_entry_cbt_invariant_witness :
    entrySubmitted.cbtSuggestion.isSome
      = entrySubmitted.negativeThought.isSome :=
  saved_entry_cbt_invariant stateR "3" "2024-01-03T00:00:00.000Z"
    entrySubmitted (by decide)

/-- C7: the trigger fires only from a valid Ready state: a click while a
request is in flight is a no-op that issues no request, and whenever a
request is issued the negative thought was non-empty, no request was
already in flight, and the state moves to in-flight (so at most one
request is ever in flight per composition). -/
theorem analyze_trigger_guard :
    (∀ s : JournalState, s.isAnalysing = true →
      clickAnalyze s = (s, false)) ∧
    (∀ s : JournalState, (clickAnalyze s).2 = true →
      s.negativeThought ≠ "" ∧ s.isAnalysing = false ∧
      (clickAnalyze s).1.isAnalysing = true) := by
  constructor
  · intro s h
    simp [clickAnalyze, analyzeButtonDisabled, h]
  · intro s h
    by_cases ha : s.aiSuggestion ≠ ""
    · simp [clickAnalyze, ha] at h
    · by_cases hd : analyzeButtonDisabled s = true
      · simp [clickAnalyze, ha, hd] at h
      · have hd' := hd
        unfold analyzeButtonDisabled at hd'
        rw [Bool.or_eq_true] at hd'
        push_neg at hd'
        have hia : s.isAnalysing = false :=
          Bool.eq_false_iff.mpr hd'.1
        have hnt : s.negativeThought ≠ "" := by
          intro he
          exact hd'.2 (by rw [he]; rfl)
        refine ⟨hnt, hia, ?_⟩
        simp [clickAnalyze, ha, hd, analyzeStart, hnt]

/-- A concrete composition state with a request already in flight. -/
def sBusy : JournalState :=
  { content := "记录", mood := Mood.sad, showCBT := true,
    negativeThought := "我总是做不好", aiSuggestion := "",
    isAnalysing := true }

/-- Witness for C7: a click while in flight is a no-op, and the issuing
click from the Ready state `stateR` starts exactly one request. -/
theorem analyze_trigger_guard_witness :
    clickAnalyze sBusy = (sBusy, false) ∧
    (stateR.negativeThought ≠ "" ∧ stateR.isAnalysing = false ∧
      (clickAnalyze stateR).1.isAnalysing = true) :=
  ⟨analyze_trigger_guard.1 sBusy rfl,
   analyze_trigger_guard.2 stateR (by decide)⟩

/-- C8: when the composed content is empty or whitespace-only,
committing the save produces no entry and leaves the stored sequence
unchanged; `handleSubmit` and `commitSave` are total, so no error is
surfaced. -/
theorem empty_content_save_noop (s : JournalState)
    (newId newDate : String) (entries : List JournalEntry)
    (h : jsTrim s.content = "") :
    handleSubmit s newId newDate = none ∧
    commitSave s newId newDate entries = entries := by
  have h1 : handleSubmit s newId newDate = none := by
    simp [handleSubmit, h]
  exact ⟨h1, by simp [commitSave, h1]⟩

/-- A concrete composition state with whitespace-only content. -/
def stateBlank : JournalState :=
  { content := "   ", mood := Mood.neutral, showCBT := false,
    negativeThought := "", aiSuggestion := "", isAnalysing := false }

/-- Witness for C8 at a whitespace-only content state and a one-entry
store. -/
theorem empty_content_save_noop_witness :
    handleSubmit stateBlank "9" "2024-01-09T00:00:00.000Z" = none ∧
    commitSave stateBlank "9" "2024-01-09T00:00:00.000Z" [entryW]
      = [entryW] :=
  empty_content_save_noop stateBlank "9" "2024-01-09T00:00:00.000Z"
    [entryW] (by decide)

end MindfulMoments
